import Mathlib

/-!
Verification of the zenmoney-skill entity cache, synchronization engine and
tool handlers.  The definitions below are a shallow embedding of the
TypeScript sources (`src/utils/cache.ts`, `src/tools/transactions.ts`,
`src/tools/analytics.ts`, `src/tools/reminder.ts`, `src/tools/reminders.ts`,
`src/tools/budget.ts`).  JavaScript `Map`s are modelled as association lists
with the exact `Map.set` / `Map.delete` semantics (replace the existing entry
in place, otherwise append; delete removes the entry for the key).  Amounts
are modelled as integers, timestamps as naturals, entity ids as strings.
Asynchronous code is modelled in two ways: a sequential model in which the
gateway (`ZenMoneyClient.diff`) is a function parameter returning
`Except String DiffObject`, and an event-step model of the promise
single-flight discipline used for the concurrency claim.
-/

set_option autoImplicit false

/-- JavaScript `Map.set`: replace the entry for the key in place if present,
otherwise append at the end. -/
def mapSet {κ α : Type} [DecidableEq κ] : List (κ × α) → κ → α → List (κ × α)
  | [], k, v => [(k, v)]
  | p :: rest, k, v => if p.1 = k then (k, v) :: rest else p :: mapSet rest k v

/-- JavaScript `Map.get`: the value stored for the key, if any. -/
def mapLookup {κ α : Type} [DecidableEq κ] : List (κ × α) → κ → Option α
  | [], _ => none
  | p :: rest, k => if p.1 = k then some p.2 else mapLookup rest k

/-- JavaScript `Map.has`. -/
def mapHas {κ α : Type} [DecidableEq κ] (m : List (κ × α)) (k : κ) : Bool :=
  (mapLookup m k).isSome

/-- JavaScript `Map.delete`: remove the entry for the key, if present. -/
def mapDelete {κ α : Type} [DecidableEq κ] : List (κ × α) → κ → List (κ × α)
  | [], _ => []
  | p :: rest, k => if p.1 = k then rest else p :: mapDelete rest k

theorem mapLookup_set_self {κ α : Type} [DecidableEq κ]
    (m : List (κ × α)) (k : κ) (v : α) : mapLookup (mapSet m k v) k = some v := by
  induction m with
  | nil => simp [mapSet, mapLookup]
  | cons p rest ih =>
      by_cases h : p.1 = k
      · simp [mapSet, mapLookup, h]
      · simp [mapSet, mapLookup, h, ih]

theorem mapDelete_absent {κ α : Type} [DecidableEq κ]
    (m : List (κ × α)) (k : κ) (h : mapHas m k = false) : mapDelete m k = m := by
  induction m with
  | nil => rfl
  | cons p rest ih =>
      by_cases hk : p.1 = k
      · simp [mapHas, mapLookup, hk] at h
      · simp only [mapHas, mapLookup, hk, if_false, if_neg hk] at h
        simp [mapDelete, hk, ih (by simp [mapHas, h])]

/-! ## Entity records

`src/api/types.ts` is not part of the corpus; each record below carries the
fields that the sources in the corpus construct or read (the literals in
`create_transaction`, `create_reminder`, `create_budget`, `create_account`
and the field accesses in the tools).  Numeric payloads that none of the
code computes with (e.g. geo coordinates) are carried as opaque integers. -/

structure Instrument where
  id : Nat
  title : String
  shortTitle : String
  deriving DecidableEq, Repr

structure Country where
  id : Nat
  deriving DecidableEq, Repr

structure Company where
  id : Nat
  deriving DecidableEq, Repr

structure UserEntity where
  id : Nat
  deriving DecidableEq, Repr

structure Account where
  id : String
  user : Nat
  instrument : Nat
  type : String
  title : String
  balance : Int
  creditLimit : Int
  inBalance : Bool
  savings : Bool
  archive : Bool
  deriving DecidableEq, Repr

structure Tag where
  id : String
  title : String
  deriving DecidableEq, Repr

structure Merchant where
  id : String
  title : String
  deriving DecidableEq, Repr

structure Reminder where
  id : String
  user : Nat
  changed : Nat
  incomeInstrument : Nat
  incomeAccount : String
  income : Int
  outcomeInstrument : Nat
  outcomeAccount : String
  outcome : Int
  tag : Option (List String)
  merchant : Option String
  payee : Option String
  comment : Option String
  interval : String
  step : Nat
  points : Option (List Nat)
  startDate : String
  endDate : Option String
  notify : Bool
  deriving DecidableEq, Repr

structure ReminderMarker where
  id : String
  reminder : String
  date : String
  state : String
  income : Int
  outcome : Int
  deriving DecidableEq, Repr

structure Transaction where
  id : String
  user : Nat
  changed : Nat
  created : Nat
  deleted : Bool
  hold : Option Bool
  incomeInstrument : Nat
  incomeAccount : String
  income : Int
  outcomeInstrument : Nat
  outcomeAccount : String
  outcome : Int
  tag : Option (List String)
  merchant : Option String
  payee : Option String
  originalPayee : Option String
  comment : Option String
  date : String
  mcc : Option Nat
  reminderMarker : Option String
  opIncome : Option Int
  opIncomeInstrument : Option Nat
  opOutcome : Option Int
  opOutcomeInstrument : Option Nat
  latitude : Option Int
  longitude : Option Int
  qrCode : Option String
  deriving DecidableEq, Repr

structure Budget where
  user : Nat
  changed : Nat
  tag : Option String
  date : String
  income : Int
  incomeLock : Bool
  outcome : Int
  outcomeLock : Bool
  deriving DecidableEq, Repr

/-- A deletion entry of a diff response: `(kind, id)`. -/
structure Deletion where
  id : String
  object : String
  deriving DecidableEq, Repr

/-- The diff protocol object (`DiffObject` in `src/api/types.ts`), both the
request and response shape.  `currentClientTimestamp` of the request is not
observable by any claim and is left out. -/
structure DiffObject where
  serverTimestamp : Option Nat := none
  instrument : Option (List Instrument) := none
  country : Option (List Country) := none
  company : Option (List Company) := none
  user : Option (List UserEntity) := none
  account : Option (List Account) := none
  tag : Option (List Tag) := none
  merchant : Option (List Merchant) := none
  reminder : Option (List Reminder) := none
  reminderMarker : Option (List ReminderMarker) := none
  transaction : Option (List Transaction) := none
  budget : Option (List Budget) := none
  deletion : Option (List Deletion) := none
  deriving DecidableEq, Repr

def emptyDiff : DiffObject := {}

/-- The mutable state of `DataCache` (`src/utils/cache.ts`, lines 10-27):
the sync cursor `serverTimestamp`, the `initialized` and `lastSyncTime`
bookkeeping and the eleven entity maps.  The `syncPromise` field lives in the
event-step concurrency model below. -/
@[ext] structure CacheState where
  serverTimestamp : Nat
  initialized : Bool
  lastSyncTime : Nat
  instruments : List (Nat × Instrument)
  countries : List (Nat × Country)
  companies : List (Nat × Company)
  users : List (Nat × UserEntity)
  accounts : List (String × Account)
  tags : List (String × Tag)
  merchants : List (String × Merchant)
  reminders : List (String × Reminder)
  reminderMarkers : List (String × ReminderMarker)
  transactions : List (String × Transaction)
  budgets : List (String × Budget)
  deriving DecidableEq, Repr

/-- The state of a fresh `DataCache` instance: cursor 0, not initialized,
empty maps (constructor plus field initializers of `DataCache`). -/
def initState : CacheState :=
  { serverTimestamp := 0
    initialized := false
    lastSyncTime := 0
    instruments := []
    countries := []
    companies := []
    users := []
    accounts := []
    tags := []
    merchants := []
    reminders := []
    reminderMarkers := []
    transactions := []
    budgets := [] }

/-- The composite budget key: `` `${b.tag ?? 'null'}:${b.date}` ``
(`cache.ts` line 108). -/
def budgetKey (b : Budget) : String :=
  (match b.tag with
    | none => "null"
    | some t => t) ++ ":" ++ b.date

/-- One primitive step of `DataCache.applyDiff`: the cursor assignment, one
per-kind `forEach`/`set` merge statement, or one deletion. -/
inductive DiffOp where
  | setCursor (v : Nat)
  | mergeInstrument (l : List Instrument)
  | mergeCountry (l : List Country)
  | mergeCompany (l : List Company)
  | mergeUser (l : List UserEntity)
  | mergeAccount (l : List Account)
  | mergeTag (l : List Tag)
  | mergeMerchant (l : List Merchant)
  | mergeReminder (l : List Reminder)
  | mergeReminderMarker (l : List ReminderMarker)
  | mergeTransaction (l : List Transaction)
  | mergeBudget (l : List Budget)
  | deleteOne (d : Deletion)
  deriving DecidableEq, Repr

def DiffOp.isCursor : DiffOp → Bool
  | .setCursor _ => true
  | _ => false

def DiffOp.isDelete : DiffOp → Bool
  | .deleteOne _ => true
  | _ => false

def DiffOp.isMerge : DiffOp → Bool
  | .setCursor _ => false
  | .deleteOne _ => false
  | _ => true

/-- `DataCache.applyDeletion` (`cache.ts` lines 114-124): a `switch` on the
deletion kind; the six user-entity kinds delete from their map, every other
kind falls through the `switch` unchanged. -/
def applyDeletion (s : CacheState) (d : Deletion) : CacheState :=
  if d.object = "account" then { s with accounts := mapDelete s.accounts d.id }
  else if d.object = "tag" then { s with tags := mapDelete s.tags d.id }
  else if d.object = "merchant" then { s with merchants := mapDelete s.merchants d.id }
  else if d.object = "reminder" then { s with reminders := mapDelete s.reminders d.id }
  else if d.object = "reminderMarker" then
    { s with reminderMarkers := mapDelete s.reminderMarkers d.id }
  else if d.object = "transaction" then
    { s with transactions := mapDelete s.transactions d.id }
  else s

/-- `forEach`/`Map.set` over one optional entity array of the diff. -/
def mergeOpt {κ α : Type} [DecidableEq κ] (key : α → κ)
    (m : List (κ × α)) (o : Option (List α)) : List (κ × α) :=
  match o with
  | none => m
  | some l => l.foldl (fun acc e => mapSet acc (key e) e) m

/-- Executing one `applyDiff` statement on the cache state. -/
def execOp (op : DiffOp) (s : CacheState) : CacheState :=
  match op with
  | .setCursor v => { s with serverTimestamp := v }
  | .mergeInstrument l => { s with instruments := mergeOpt Instrument.id s.instruments (some l) }
  | .mergeCountry l => { s with countries := mergeOpt Country.id s.countries (some l) }
  | .mergeCompany l => { s with companies := mergeOpt Company.id s.companies (some l) }
  | .mergeUser l => { s with users := mergeOpt UserEntity.id s.users (some l) }
  | .mergeAccount l => { s with accounts := mergeOpt Account.id s.accounts (some l) }
  | .mergeTag l => { s with tags := mergeOpt Tag.id s.tags (some l) }
  | .mergeMerchant l => { s with merchants := mergeOpt Merchant.id s.merchants (some l) }
  | .mergeReminder l => { s with reminders := mergeOpt Reminder.id s.reminders (some l) }
  | .mergeReminderMarker l =>
      { s with reminderMarkers := mergeOpt ReminderMarker.id s.reminderMarkers (some l) }
  | .mergeTransaction l =>
      { s with transactions := mergeOpt Transaction.id s.transactions (some l) }
  | .mergeBudget l => { s with budgets := mergeOpt budgetKey s.budgets (some l) }
  | .deleteOne d => applyDeletion s d

/-- The optional singleton statement for one `diff.kind?.forEach(...)` line. -/
def optOp {α : Type} (mk : List α → DiffOp) (o : Option (List α)) : List DiffOp :=
  match o with
  | none => []
  | some l => [mk l]

/-- The statements of `DataCache.applyDiff` (`cache.ts` lines 90-112) in
source order: the guarded cursor assignment (lines 91-93), the eleven
per-kind merges (lines 96-108), then one deletion per entry of
`diff.deletion` (line 111). -/
def applyDiffOps (d : DiffObject) : List DiffOp :=
  (match d.serverTimestamp with
    | none => []
    | some v => [DiffOp.setCursor v])
  ++ (optOp .mergeInstrument d.instrument ++ optOp .mergeCountry d.country
      ++ optOp .mergeCompany d.company ++ optOp .mergeUser d.user
      ++ optOp .mergeAccount d.account ++ optOp .mergeTag d.tag
      ++ optOp .mergeMerchant d.merchant ++ optOp .mergeReminder d.reminder
      ++ optOp .mergeReminderMarker d.reminderMarker
      ++ optOp .mergeTransaction d.transaction ++ optOp .mergeBudget d.budget)
  ++ (d.deletion.getD []).map DiffOp.deleteOne

/-- `DataCache.applyDiff`: run the statements in source order. -/
def applyDiff (s : CacheState) (d : DiffObject) : CacheState :=
  (applyDiffOps d).foldl (fun st op => execOp op st) s

/-- The entity-merge section of `applyDiff` alone (lines 96-108), as one
simultaneous update of the eleven maps. -/
def applyEntities (s : CacheState) (d : DiffObject) : CacheState :=
  { s with
    instruments := mergeOpt Instrument.id s.instruments d.instrument
    countries := mergeOpt Country.id s.countries d.country
    companies := mergeOpt Company.id s.companies d.company
    users := mergeOpt UserEntity.id s.users d.user
    accounts := mergeOpt Account.id s.accounts d.account
    tags := mergeOpt Tag.id s.tags d.tag
    merchants := mergeOpt Merchant.id s.merchants d.merchant
    reminders := mergeOpt Reminder.id s.reminders d.reminder
    reminderMarkers := mergeOpt ReminderMarker.id s.reminderMarkers d.reminderMarker
    transactions := mergeOpt Transaction.id s.transactions d.transaction
    budgets := mergeOpt budgetKey s.budgets d.budget }

/-- The deletion section of `applyDiff` alone (line 111). -/
def applyDeletions (s : CacheState) (d : DiffObject) : CacheState :=
  (d.deletion.getD []).foldl applyDeletion s

/-- The guarded cursor assignment of `applyDiff` alone (lines 91-93). -/
def applyCursor (s : CacheState) (d : DiffObject) : CacheState :=
  match d.serverTimestamp with
  | none => s
  | some v => { s with serverTimestamp := v }

/-! ### Decomposition of `applyDiff` into its three sections -/

theorem foldl_cursorOps (o : Option Nat) (rest : List DiffOp) (s : CacheState) :
    ((match o with
      | none => []
      | some v => [DiffOp.setCursor v]) ++ rest).foldl (fun st op => execOp op st) s
      = rest.foldl (fun st op => execOp op st)
          (match o with
            | none => s
            | some v => { s with serverTimestamp := v }) := by
  cases o <;> rfl

theorem foldl_deleteOps (l : List Deletion) (s : CacheState) :
    (l.map DiffOp.deleteOne).foldl (fun st op => execOp op st) s = l.foldl applyDeletion s := by
  rw [List.foldl_map]
  rfl

theorem foldl_optOp_instrument (o : Option (List Instrument)) (rest : List DiffOp)
    (s : CacheState) :
    (optOp .mergeInstrument o ++ rest).foldl (fun st op => execOp op st) s
      = rest.foldl (fun st op => execOp op st)
          { s with instruments := mergeOpt Instrument.id s.instruments o } := by
  cases o <;> rfl

theorem foldl_optOp_country (o : Option (List Country)) (rest : List DiffOp) (s : CacheState) :
    (optOp .mergeCountry o ++ rest).foldl (fun st op => execOp op st) s
      = rest.foldl (fun st op => execOp op st)
          { s with countries := mergeOpt Country.id s.countries o } := by
  cases o <;> rfl

theorem foldl_optOp_company (o : Option (List Company)) (rest : List DiffOp) (s : CacheState) :
    (optOp .mergeCompany o ++ rest).foldl (fun st op => execOp op st) s
      = rest.foldl (fun st op => execOp op st)
          { s with companies := mergeOpt Company.id s.companies o } := by
  cases o <;> rfl

theorem foldl_optOp_user (o : Option (List UserEntity)) (rest : List DiffOp) (s : CacheState) :
    (optOp .mergeUser o ++ rest).foldl (fun st op => execOp op st) s
      = rest.foldl (fun st op => execOp op st)
          { s with users := mergeOpt UserEntity.id s.users o } := by
  cases o <;> rfl

theorem foldl_optOp_account (o : Option (List Account)) (rest : List DiffOp) (s : CacheState) :
    (optOp .mergeAccount o ++ rest).foldl (fun st op => execOp op st) s
      = rest.foldl (fun st op => execOp op st)
          { s with accounts := mergeOpt Account.id s.accounts o } := by
  cases o <;> rfl

theorem foldl_optOp_tag (o : Option (List Tag)) (rest : List DiffOp) (s : CacheState) :
    (optOp .mergeTag o ++ rest).foldl (fun st op => execOp op st) s
      = rest.foldl (fun st op => execOp op st)
          { s with tags := mergeOpt Tag.id s.tags o } := by
  cases o <;> rfl

theorem foldl_optOp_merchant (o : Option (List Merchant)) (rest : List DiffOp) (s : CacheState) :
    (optOp .mergeMerchant o ++ rest).foldl (fun st op => execOp op st) s
      = rest.foldl (fun st op => execOp op st)
          { s with merchants := mergeOpt Merchant.id s.merchants o } := by
  cases o <;> rfl

theorem foldl_optOp_reminder (o : Option (List Reminder)) (rest : List DiffOp) (s : CacheState) :
    (optOp .mergeReminder o ++ rest).foldl (fun st op => execOp op st) s
      = rest.foldl (fun st op => execOp op st)
          { s with reminders := mergeOpt Reminder.id s.reminders o } := by
  cases o <;> rfl

theorem foldl_optOp_reminderMarker (o : Option (List ReminderMarker)) (rest : List DiffOp)
    (s : CacheState) :
    (optOp .mergeReminderMarker o ++ rest).foldl (fun st op => execOp op st) s
      = rest.foldl (fun st op => execOp op st)
          { s with reminderMarkers := mergeOpt ReminderMarker.id s.reminderMarkers o } := by
  cases o <;> rfl

theorem foldl_optOp_transaction (o : Option (List Transaction)) (rest : List DiffOp)
    (s : CacheState) :
    (optOp .mergeTransaction o ++ rest).foldl (fun st op => execOp op st) s
      = rest.foldl (fun st op => execOp op st)
          { s with transactions := mergeOpt Transaction.id s.transactions o } := by
  cases o <;> rfl

theorem foldl_optOp_budget (o : Option (List Budget)) (rest : List DiffOp) (s : CacheState) :
    (optOp .mergeBudget o ++ rest).foldl (fun st op => execOp op st) s
      = rest.foldl (fun st op => execOp op st)
          { s with budgets := mergeOpt budgetKey s.budgets o } := by
  cases o <;> rfl

/-- `applyDiff` in source order is: cursor assignment, then the eleven
merges, then the deletions. -/
theorem applyDiff_decomp (s : CacheState) (d : DiffObject) :
    applyDiff s d = applyDeletions (applyEntities (applyCursor s d) d) d := by
  unfold applyDiff applyDiffOps
  simp only [List.append_assoc]
  rw [foldl_cursorOps, foldl_optOp_instrument, foldl_optOp_country, foldl_optOp_company,
    foldl_optOp_user, foldl_optOp_account, foldl_optOp_tag, foldl_optOp_merchant,
    foldl_optOp_reminder, foldl_optOp_reminderMarker, foldl_optOp_transaction,
    foldl_optOp_budget, foldl_deleteOps]
  rfl

/-! ### Commuting the cursor assignment to the end -/

theorem applyDeletion_setCursor (t : CacheState) (del : Deletion) (v : Nat) :
    applyDeletion { t with serverTimestamp := v } del
      = { applyDeletion t del with serverTimestamp := v } := by
  unfold applyDeletion
  split_ifs <;> rfl

theorem applyDeletions_setCursor (ds : List Deletion) (t : CacheState) (v : Nat) :
    ds.foldl applyDeletion { t with serverTimestamp := v }
      = { ds.foldl applyDeletion t with serverTimestamp := v } := by
  induction ds generalizing t with
  | nil => rfl
  | cons del rest ih => simp [List.foldl_cons, applyDeletion_setCursor, ih]

theorem applyEntities_applyCursor (s : CacheState) (d : DiffObject) :
    applyEntities (applyCursor s d) d = applyCursor (applyEntities s d) d := by
  unfold applyCursor
  cases d.serverTimestamp <;> rfl

theorem applyDeletions_applyCursor (t : CacheState) (d : DiffObject) :
    applyDeletions (applyCursor t d) d = applyCursor (applyDeletions t d) d := by
  unfold applyCursor applyDeletions
  cases d.serverTimestamp
  · rfl
  · exact applyDeletions_setCursor _ _ _

/-- `applyDiff` computes the same state as merging all entities, then
applying all deletions, then advancing the cursor. -/
theorem applyDiff_cursor_last (s : CacheState) (d : DiffObject) :
    applyDiff s d = applyCursor (applyDeletions (applyEntities s d) d) d := by
  rw [applyDiff_decomp, applyEntities_applyCursor, applyDeletions_applyCursor]

/-! ### Concatenating entity batches (for the merge-associativity claim) -/

/-- Concatenation of two optional entity arrays. -/
def catOpt {α : Type} : Option (List α) → Option (List α) → Option (List α)
  | none, b => b
  | some a, none => some a
  | some a, some b => some (a ++ b)

/-- The single batch "A followed by B": every entity array of `A` followed by
the one of `B`; the cursor of `B` wins when present, deletions concatenate. -/
def catDiff (A B : DiffObject) : DiffObject :=
  { serverTimestamp := match B.serverTimestamp with
      | some v => some v
      | none => A.serverTimestamp
    instrument := catOpt A.instrument B.instrument
    country := catOpt A.country B.country
    company := catOpt A.company B.company
    user := catOpt A.user B.user
    account := catOpt A.account B.account
    tag := catOpt A.tag B.tag
    merchant := catOpt A.merchant B.merchant
    reminder := catOpt A.reminder B.reminder
    reminderMarker := catOpt A.reminderMarker B.reminderMarker
    transaction := catOpt A.transaction B.transaction
    budget := catOpt A.budget B.budget
    deletion := catOpt A.deletion B.deletion }

theorem mergeOpt_cat {κ α : Type} [DecidableEq κ] (key : α → κ)
    (m : List (κ × α)) (a b : Option (List α)) :
    mergeOpt key (mergeOpt key m a) b = mergeOpt key m (catOpt a b) := by
  cases a <;> cases b <;> simp [mergeOpt, catOpt, List.foldl_append]

/-! ## The sequential model of the sync engine

`DataCache.sync`, `_doSync`, `ensureInitialized` and `writeDiff` await one
gateway round trip (`this.client.diff(...)`).  In the sequential model the
gateway is a function from the request (cursor, and for writes the entity
payload) to `Except String DiffObject`; a `.error` value is a rejected
promise.  Each operation returns its result, the list of gateway requests it
issued (in order), and the cache state after the call; a thrown error
propagates to the caller, leaving the state exactly as it was when the
exception was raised. -/

/-- A gateway request: the cursor sent as `serverTimestamp` plus, for
write-through calls, the spread entity payload (`...changes`). -/
structure GwRequest where
  cursor : Nat
  changes : Option DiffObject
  deriving DecidableEq, Repr

/-- Outcome of one cache operation in the sequential model. -/
structure RunOut (α : Type) where
  res : Except String α
  reqs : List GwRequest
  state : CacheState
  deriving Repr

/-- `DataCache._doSync` (`cache.ts` lines 48-58): one gateway request at the
current cursor; on success apply the diff, mark the cache initialized and
record the sync time; on failure the awaited rejection propagates and no
statement after the `await` runs. -/
def doSync (gw : Nat → Except String DiffObject) (now : Nat) (s : CacheState) :
    RunOut DiffObject :=
  let req : GwRequest := { cursor := s.serverTimestamp, changes := none }
  match gw s.serverTimestamp with
  | .error e => { res := .error e, reqs := [req], state := s }
  | .ok d =>
      { res := .ok d
        reqs := [req]
        state := { applyDiff s d with initialized := true, lastSyncTime := now } }

/-- The 5-minute staleness window (`cache.ts` line 14). -/
def CACHE_TTL_MS : Nat := 5 * 60 * 1000

/-- `DataCache.ensureInitialized` (`cache.ts` lines 61-70).  In the
sequential model there is no in-flight promise, so `sync()` is exactly one
`_doSync` run. -/
def ensureInitialized (gw : Nat → Except String DiffObject) (now : Nat) (s : CacheState) :
    RunOut Unit :=
  if s.initialized = false then
    let r := doSync gw now s
    { res := r.res.map (fun _ => ()), reqs := r.reqs, state := r.state }
  else if CACHE_TTL_MS < now - s.lastSyncTime then
    let r := doSync gw now s
    { res := r.res.map (fun _ => ()), reqs := r.reqs, state := r.state }
  else
    { res := .ok (), reqs := [], state := s }

/-- `DataCache.writeDiff` (`cache.ts` lines 73-88): one gateway request at
the current cursor carrying the caller's entity payload; on success apply
the response diff and record the sync time (`initialized` is not touched
here); on failure the rejection propagates with no statement after the
`await` having run.  (The `await this.syncPromise` line is a no-op in the
sequential model; the event-step model below covers it.) -/
def writeDiff (gw : Nat → DiffObject → Except String DiffObject) (now : Nat)
    (changes : DiffObject) (s : CacheState) : RunOut DiffObject :=
  let req : GwRequest := { cursor := s.serverTimestamp, changes := some changes }
  match gw s.serverTimestamp changes with
  | .error e => { res := .error e, reqs := [req], state := s }
  | .ok d =>
      { res := .ok d
        reqs := [req]
        state := { applyDiff s d with lastSyncTime := now } }

def charListLe : List Char → List Char → Bool
  | [], _ => true
  | _ :: _, [] => false
  | a :: as, b :: bs =>
      if a.val < b.val then true
      else if a.val = b.val then charListLe as bs
      else false

/-- JavaScript `a <= b` on strings. -/
def strLe (a b : String) : Bool := charListLe a.data b.data

/-- JavaScript `a < b` on strings. -/
def strLt (a b : String) : Bool := strLe a b && !(a = b)

/-- `get_transactions` line 53: `t.outcomeAccount !== t.incomeAccount && t.outcome > 0 && t.income > 0`. -/
def listIsTransfer (t : Transaction) : Bool :=
  decide (t.outcomeAccount ≠ t.incomeAccount) && decide (0 < t.outcome) && decide (0 < t.income)

/-- `get_transactions` line 54: `t.outcome > 0 && !isTransfer`. -/
def listIsExpense (t : Transaction) : Bool :=
  decide (0 < t.outcome) && !(listIsTransfer t)

/-- `get_transactions` line 55: `t.income > 0 && !isTransfer`. -/
def listIsIncome (t : Transaction) : Bool :=
  decide (0 < t.income) && !(listIsTransfer t)

/-- `get_analytics` line 307. -/
def anaIsTransfer (t : Transaction) : Bool :=
  decide (t.outcomeAccount ≠ t.incomeAccount) && decide (0 < t.outcome) && decide (0 < t.income)

/-- `get_analytics` line 308: `t.outcome > 0 && t.income === 0 && !isTransfer`. -/
def anaIsExpense (t : Transaction) : Bool :=
  decide (0 < t.outcome) && decide (t.income = 0) && !(anaIsTransfer t)

/-- `get_analytics` line 309: `t.income > 0 && t.outcome === 0 && !isTransfer`. -/
def anaIsIncome (t : Transaction) : Bool :=
  decide (0 < t.income) && decide (t.outcome = 0) && !(anaIsTransfer t)

/-- A transaction matching none of the three analytics predicates: the
"invalid / no contribution" class. -/
def anaIsInvalid (t : Transaction) : Bool :=
  !(anaIsExpense t) && !(anaIsIncome t) && !(anaIsTransfer t)

/-! ## Tool handler cores

Each write tool of `src/tools/transactions.ts`, `src/tools/reminder.ts` and
`src/tools/budget.ts` runs, in order: format validation of its inputs
(`validateUUID` / `validateDate` / `validateMonth` /
`validatePositiveNumber` from `src/utils/validation.ts`, which is not in the
corpus; these are pure format checks on the caller's input that throw before
any cache access), `await cache.ensureInitialized()`, existence checks
against the cache, construction of the entity, and `cache.writeDiff`.  The
cores below model a handler from the point after format validation has
passed and `ensureInitialized` has returned, over the cache state `s` that
call produced; `now` stands for `Math.floor(Date.now() / 1000)`, `uuid` for
`crypto.randomUUID()`, `today` for `todayString()`.  The JSON rendering of
the response is elided; `res` carries the entity the handler submitted. -/

/-- Submit one write batch through `cache.writeDiff` and return `out` on
success (the handlers' response formatting is not modelled). -/
def runWrite {α : Type} (gw : Nat → DiffObject → Except String DiffObject) (now : Nat)
    (chg : DiffObject) (s : CacheState) (out : α) : RunOut α :=
  let r := writeDiff gw now chg s
  { res := r.res.map (fun _ => out), reqs := r.reqs, state := r.state }

/-- `delete_transaction` handler (`transactions.ts` lines 252-274): a soft
delete submitting the stored transaction with `deleted: true` and a fresh
`changed` timestamp. -/
def deleteTransaction (gw : Nat → DiffObject → Except String DiffObject)
    (now : Nat) (id : String) (s : CacheState) : RunOut Transaction :=
  match mapLookup s.transactions id with
  | none => { res := .error ("Transaction not found: " ++ id), reqs := [], state := s }
  | some existing =>
      let del : Transaction := { existing with deleted := true, changed := now }
      runWrite gw now { emptyDiff with transaction := some [del] } s del

/-- `delete_reminder` handler (`reminder.ts` lines 221-252): a soft delete
submitting the stored reminder with `endDate` moved to `2000-01-01` and a
fresh `changed` timestamp. -/
def deleteReminder (gw : Nat → DiffObject → Except String DiffObject)
    (now : Nat) (id : String) (s : CacheState) : RunOut Reminder :=
  match mapLookup s.reminders id with
  | none => { res := .error ("Reminder not found: " ++ id), reqs := [], state := s }
  | some existing =>
      let del : Reminder := { existing with changed := now, endDate := some "2000-01-01" }
      runWrite gw now { emptyDiff with reminder := some [del] } s del

/-- The `active_only` filter of the legacy `get_reminders` listing
(`src/tools/reminders.ts` line 26): a reminder is active when it has no
`endDate` or its `endDate` is today or later. -/
def reminderIsActive (r : Reminder) (todayStr : String) : Bool :=
  match r.endDate with
  | none => true
  | some e => strLe todayStr e

/-! ## Marker-mode reminder listing

`src/tools/reminders.ts` in the corpus holds only the legacy `get_reminders`
mode.  The marker mode (`marker_from` / `marker_to` parameters,
`markers_count`, `markers_total_outcome`, `markers_total_income` response
fields) is part of this repository — it is documented in `SKILL.md`
("Marker-режим") and `CHANGELOG` — but its implementation file is not under
`src/`.  It is therefore modelled from the spec below. -/

/-- One reminder entry of the marker-mode `get_reminders` response. -/
structure MarkerModeEntry where
  rid : String
  markersCount : Nat
  markersTotalOutcome : Int
  markersTotalIncome : Int
  deriving DecidableEq, Repr

/-- Modelled from the spec: the qualifying markers of one reminder for the
marker-mode listing (spec §4.4; the implementation is not under `src/`):
the markers belonging to the reminder whose date lies in the closed
interval `[mfrom, mto]`, restricted to state `planned` unless processed
markers are included. -/
def qualifyingMarkers (markers : List ReminderMarker) (r : Reminder)
    (mfrom mto : String) (includeProcessed : Bool) : List ReminderMarker :=
  markers.filter (fun m =>
    decide (m.reminder = r.id) && strLe mfrom m.date && strLe m.date mto
      && (includeProcessed || decide (m.state = "planned")))

/-- Modelled from the spec: marker-mode `get_reminders` (spec §4.4 and
`SKILL.md` "Marker-режим"; the implementation is not under `src/`): a
reminder is listed iff it has at least one qualifying marker in the
interval, and each listed reminder reports the count of its qualifying
markers and the sums of their outcome and income amounts. -/
def markerModeList (rems : List Reminder) (markers : List ReminderMarker)
    (mfrom mto : String) (includeProcessed : Bool) : List MarkerModeEntry :=
  rems.filterMap (fun r =>
    let q := qualifyingMarkers markers r mfrom mto includeProcessed
    if q.isEmpty then none
    else some
      { rid := r.id
        markersCount := q.length
        markersTotalOutcome := (q.map ReminderMarker.outcome).sum
        markersTotalIncome := (q.map ReminderMarker.income).sum })

/-! ## The event-step model of the promise single-flight discipline

`DataCache.sync` (`cache.ts` lines 34-46) keeps the in-flight `_doSync`
promise in `this.syncPromise`; a second `sync` call returns that promise,
and `writeDiff` (lines 73-88) first awaits it.  The model below replays the
JavaScript event-loop behaviour: a call event runs the synchronous prefix of
the method up to its `await` of the gateway, and a gateway-response event
resolves or rejects the in-flight promise, resuming every continuation
queued on it (in queue order).  `syncWaiters = some ws` corresponds to
`syncPromise !== null` with `ws` the callers awaiting it; `queuedWrites`
holds `writeDiff` calls suspended on `await this.syncPromise`. -/

structure SysState where
  cache : CacheState
  syncWaiters : Option (List Nat)
  queuedWrites : List (Nat × DiffObject)
  writeFlights : List (Nat × DiffObject)
  requests : List GwRequest
  results : List (Nat × Except String DiffObject)
  deriving Repr

/-- A quiescent system around a cache state: nothing in flight. -/
def quiescent (c : CacheState) : SysState :=
  { cache := c
    syncWaiters := none
    queuedWrites := []
    writeFlights := []
    requests := []
    results := [] }

inductive SysEvent where
  | callSync (c : Nat)
  | callWrite (c : Nat) (chg : DiffObject)
  | respondSync (r : Except String DiffObject) (now : Nat)
  | respondWrite (c : Nat) (r : Except String DiffObject) (now : Nat)
  deriving Repr

/-- One event step. -/
def sysStep (st : SysState) (ev : SysEvent) : SysState :=
  match ev with
  | .callSync c =>
      match st.syncWaiters with
      | some ws => { st with syncWaiters := some (ws ++ [c]) }
      | none =>
          { st with
            syncWaiters := some [c]
            requests := st.requests ++ [{ cursor := st.cache.serverTimestamp, changes := none }] }
  | .callWrite c chg =>
      match st.syncWaiters with
      | some _ => { st with queuedWrites := st.queuedWrites ++ [(c, chg)] }
      | none =>
          { st with
            writeFlights := st.writeFlights ++ [(c, chg)]
            requests := st.requests
              ++ [{ cursor := st.cache.serverTimestamp, changes := some chg }] }
  | .respondSync r now =>
      match st.syncWaiters with
      | none => st
      | some ws =>
          match r with
          | .ok d =>
              let cache' := { applyDiff st.cache d with initialized := true, lastSyncTime := now }
              { cache := cache'
                syncWaiters := none
                queuedWrites := []
                writeFlights := st.writeFlights ++ st.queuedWrites
                requests := st.requests
                  ++ st.queuedWrites.map
                      (fun w => { cursor := cache'.serverTimestamp, changes := some w.2 })
                results := st.results ++ ws.map (fun c => (c, .ok d)) }
          | .error e =>
              { st with
                syncWaiters := none
                queuedWrites := []
                results := st.results ++ ws.map (fun c => (c, .error e))
                  ++ st.queuedWrites.map (fun w => (w.1, .error e)) }
  | .respondWrite c r now =>
      if st.writeFlights.any (fun w => w.1 = c) then
        match r with
        | .ok d =>
            { st with
              cache := { applyDiff st.cache d with lastSyncTime := now }
              writeFlights := st.writeFlights.filter (fun w => w.1 ≠ c)
              results := st.results ++ [(c, .ok d)] }
        | .error e =>
            { st with
              writeFlights := st.writeFlights.filter (fun w => w.1 ≠ c)
              results := st.results ++ [(c, .error e)] }
      else st

def sysRun (st : SysState) (evs : List SysEvent) : SysState :=
  evs.foldl sysStep st

/-! # Claims -/

/-! ## C1: transaction type classification -/

/-- An invalid transaction: both amounts positive on one and the same
account. -/
def bothPositiveSameAccountTx : Transaction :=
  { id := "t-bad"
    user := 1
    changed := 0
    created := 0
    deleted := false
    hold := none
    incomeInstrument := 2
    incomeAccount := "acc-1"
    income := 5
    outcomeInstrument := 2
    outcomeAccount := "acc-1"
    outcome := 5
    tag := none
    merchant := none
    payee := none
    originalPayee := none
    comment := none
    date := "2026-01-01"
    mcc := none
    reminderMarker := none
    opIncome := none
    opIncomeInstrument := none
    opOutcome := none
    opOutcomeInstrument := none
    latitude := none
    longitude := none
    qrCode := none }

/-- C1 counterexample: the transaction-listing filter's predicates are not
mutually exclusive.  A transaction with outcome 5 and income 5 on the same
account — an invalid combination by the claimed classification, confirmed
here by the analytics predicates — satisfies both the listing filter's
expense predicate and its income predicate at once. -/
theorem claim1_counterexample :
    listIsExpense bothPositiveSameAccountTx = true
      ∧ listIsIncome bothPositiveSameAccountTx = true
      ∧ anaIsInvalid bothPositiveSameAccountTx = true := by
  decide

/-- C1 (amended): the analytics filter's predicates are mutually exclusive
and exhaustive: for every transaction exactly one of
expense / income / transfer / invalid holds, with expense iff
`outcome > 0 ∧ income = 0`, income iff `income > 0 ∧ outcome = 0`, transfer
iff both amounts are positive on distinct accounts, and every other
combination invalid (no contribution, never a thrown error — the predicates
are total).  The listing filter agrees with the analytics filter on the
transfer predicate, but its expense and income predicates drop the
opposite-side-zero test, so invalid transactions with both amounts positive
on one account match both of them (see the counterexample). -/
theorem claim1_classification (t : Transaction) :
    ((anaIsExpense t).toNat + (anaIsIncome t).toNat + (anaIsTransfer t).toNat
        + (anaIsInvalid t).toNat = 1)
    ∧ (anaIsExpense t = true ↔ 0 < t.outcome ∧ t.income = 0)
    ∧ (anaIsIncome t = true ↔ 0 < t.income ∧ t.outcome = 0)
    ∧ (anaIsTransfer t = true
        ↔ 0 < t.outcome ∧ 0 < t.income ∧ t.outcomeAccount ≠ t.incomeAccount)
    ∧ listIsTransfer t = anaIsTransfer t := by
  refine ⟨?_, ?_, ?_, ?_, rfl⟩ <;>
  · simp only [anaIsExpense, anaIsIncome, anaIsTransfer, anaIsInvalid]
    by_cases ho : 0 < t.outcome <;> by_cases hi : 0 < t.income <;>
      by_cases ho0 : t.outcome = 0 <;> by_cases hi0 : t.income = 0 <;>
      by_cases ha : t.outcomeAccount = t.incomeAccount <;>
      simp [ho, hi, ho0, hi0, ha]

/-! ## C2: gateway failure leaves the cache untouched -/

/-- C2: if the gateway request of `_doSync` or `writeDiff` fails, the error
propagates to the caller and the cursor, every entity map and the
last-synced timestamp are exactly as before the call (the returned state is
the input state `s`, all fields included); a retry therefore issues its
request from the same unchanged cursor. -/
theorem claim2_failure_preserves_state
    (gw : Nat → Except String DiffObject)
    (gwW : Nat → DiffObject → Except String DiffObject)
    (now : Nat) (s : CacheState) (chg : DiffObject) (e1 e2 : String)
    (h1 : gw s.serverTimestamp = .error e1)
    (h2 : gwW s.serverTimestamp chg = .error e2) :
    doSync gw now s
        = { res := .error e1
            reqs := [{ cursor := s.serverTimestamp, changes := none }]
            state := s }
    ∧ writeDiff gwW now chg s
        = { res := .error e2
            reqs := [{ cursor := s.serverTimestamp, changes := some chg }]
            state := s }
    ∧ (∀ (gw2 : Nat → Except String DiffObject) (now2 : Nat),
        (doSync gw2 now2 s).reqs = [{ cursor := s.serverTimestamp, changes := none }]) := by
  refine ⟨?_, ?_, ?_⟩
  · unfold doSync
    rw [h1]
  · unfold writeDiff
    rw [h2]
  · intro gw2 now2
    unfold doSync
    cases gw2 s.serverTimestamp <;> rfl

/-- C2 witness: a failing gateway at the fresh cache state. -/
theorem claim2_witness :
    doSync (fun _ => .error "network") 7 initState
        = { res := .error "network"
            reqs := [{ cursor := initState.serverTimestamp, changes := none }]
            state := initState }
    ∧ writeDiff (fun _ _ => .error "auth") 7 emptyDiff initState
        = { res := .error "auth"
            reqs := [{ cursor := initState.serverTimestamp, changes := some emptyDiff }]
            state := initState } := by
  have h := claim2_failure_preserves_state (fun _ => .error "network")
    (fun _ _ => .error "auth") 7 initState emptyDiff "network" "auth" rfl rfl
  exact ⟨h.1, h.2.1⟩

/-! ## C4: `ensureInitialized` behaviour -/

/-- C4: `ensureInitialized` performs a full synchronization (one request at
cursor 0) when nothing has ever been synchronized (the fresh state: not
initialized, cursor still 0 — a failed sync leaves that state unchanged, by
C2); an incremental synchronization at the current cursor when initialized
but the time since the last successful sync exceeds the 5-minute TTL; and
otherwise returns immediately with no gateway request and the state
untouched. -/
theorem claim4_ensureInitialized
    (gw : Nat → Except String DiffObject) (now : Nat) (s : CacheState) :
    (s.initialized = false → s.serverTimestamp = 0 →
      (ensureInitialized gw now s).reqs = [{ cursor := 0, changes := none }]
        ∧ (ensureInitialized gw now s).state = (doSync gw now s).state)
    ∧ (s.initialized = true → CACHE_TTL_MS < now - s.lastSyncTime →
      (ensureInitialized gw now s).reqs = [{ cursor := s.serverTimestamp, changes := none }]
        ∧ (ensureInitialized gw now s).state = (doSync gw now s).state)
    ∧ (s.initialized = true → now - s.lastSyncTime ≤ CACHE_TTL_MS →
      ensureInitialized gw now s = { res := .ok (), reqs := [], state := s }) := by
  refine ⟨?_, ?_, ?_⟩
  · intro hinit hcur
    unfold ensureInitialized
    rw [hinit]
    simp only [if_pos rfl]
    constructor
    · unfold doSync
      rw [hcur]
      cases gw 0 <;> rfl
    · rfl
  · intro hinit hstale
    unfold ensureInitialized
    rw [hinit]
    simp only [Bool.true_eq_false, if_false, if_pos hstale]
    constructor
    · unfold doSync
      cases gw s.serverTimestamp <;> rfl
    · trivial
  · intro hinit hfresh
    unfold ensureInitialized
    rw [hinit]
    simp only [Bool.true_eq_false, if_false, if_neg (Nat.not_lt.mpr hfresh)]

/-- C4 witness: the three branches at concrete states. -/
theorem claim4_witness :
    ((ensureInitialized (fun _ => .ok emptyDiff) 1000 initState).reqs
        = [{ cursor := 0, changes := none }])
    ∧ ((ensureInitialized (fun _ => .ok emptyDiff) 600000
          { initState with initialized := true, serverTimestamp := 42 }).reqs
        = [{ cursor := 42, changes := none }])
    ∧ (ensureInitialized (fun _ => .ok emptyDiff) 1000
          { initState with initialized := true, lastSyncTime := 900 }
        = { res := .ok ()
            reqs := []
            state := { initState with initialized := true, lastSyncTime := 900 } }) := by
  refine ⟨?_, ?_, ?_⟩
  · exact (claim4_ensureInitialized (fun _ => .ok emptyDiff) 1000 initState).1 rfl rfl |>.1
  · exact (claim4_ensureInitialized (fun _ => .ok emptyDiff) 600000
      { initState with initialized := true, serverTimestamp := 42 }).2.1 rfl (by decide) |>.1
  · exact (claim4_ensureInitialized (fun _ => .ok emptyDiff) 1000
      { initState with initialized := true, lastSyncTime := 900 }).2.2 rfl (by decide)

/-! ## C10: `applyDeletion` frame conditions -/

/-- C10: a deletion whose kind is not one of the six handled user-entity
kinds (in particular budget, instrument, country, company and user
deletions) leaves the whole cache state unchanged and raises no error, and
a deletion of an id absent from its map is a no-op. -/
theorem claim10_applyDeletion_frame (s : CacheState) (d : Deletion) :
    (d.object ∉ (["account", "tag", "merchant", "reminder", "reminderMarker",
        "transaction"] : List String) → applyDeletion s d = s)
    ∧ (d.object = "account" → mapHas s.accounts d.id = false → applyDeletion s d = s)
    ∧ (d.object = "tag" → mapHas s.tags d.id = false → applyDeletion s d = s)
    ∧ (d.object = "merchant" → mapHas s.merchants d.id = false → applyDeletion s d = s)
    ∧ (d.object = "reminder" → mapHas s.reminders d.id = false → applyDeletion s d = s)
    ∧ (d.object = "reminderMarker" → mapHas s.reminderMarkers d.id = false →
        applyDeletion s d = s)
    ∧ (d.object = "transaction" → mapHas s.transactions d.id = false →
        applyDeletion s d = s) := by
  refine ⟨?_, ?_, ?_, ?_, ?_, ?_, ?_⟩
  · intro h
    simp only [List.mem_cons, List.not_mem_nil, or_false, not_or] at h
    obtain ⟨h1, h2, h3, h4, h5, h6⟩ := h
    unfold applyDeletion
    rw [if_neg h1, if_neg h2, if_neg h3, if_neg h4, if_neg h5, if_neg h6]
  all_goals
    intro hobj habs
    unfold applyDeletion
    rw [hobj]
    simp only [reduceIte, String.reduceEq]
    rw [mapDelete_absent _ _ habs]

/-! ## C5: merging batches -/

/-- C5: applying entity batch A and then batch B to the store equals
applying the single concatenated batch A++B; within one batch, entities
sharing an id resolve last-write-wins (the last occurrence is the one
found afterwards), for transactions keyed by id and for budgets keyed by
the composite `tag:month` key, which is recomputed by the same `budgetKey`
function on every merge. -/
theorem claim5_merge_concat (s : CacheState) (A B : DiffObject) :
    applyEntities (applyEntities s A) B = applyEntities s (catDiff A B)
    ∧ (∀ (m : List (String × Transaction)) (pre : List Transaction) (t : Transaction),
        mapLookup (mergeOpt Transaction.id m (some (pre ++ [t]))) t.id = some t)
    ∧ (∀ (m : List (String × Budget)) (pre : List Budget) (b : Budget),
        mapLookup (mergeOpt budgetKey m (some (pre ++ [b]))) (budgetKey b) = some b) := by
  refine ⟨?_, ?_, ?_⟩
  · apply CacheState.ext <;> simp [applyEntities, catDiff, mergeOpt_cat]
  · intro m pre t
    simp only [mergeOpt, List.foldl_append, List.foldl_cons, List.foldl_nil]
    exact mapLookup_set_self _ _ _
  · intro m pre b
    simp only [mergeOpt, List.foldl_append, List.foldl_cons, List.foldl_nil]
    exact mapLookup_set_self _ _ _

/-! ## C3: order of operations inside `applyDiff` -/

theorem mem_optOp {α : Type} (mk : List α → DiffOp) (o : Option (List α)) (op : DiffOp)
    (h : op ∈ optOp mk o) : ∃ l, op = mk l := by
  cases o with
  | none => simp [optOp] at h
  | some l =>
      simp only [optOp, List.mem_singleton] at h
      exact ⟨l, h⟩

/-- A sample account value. -/
def sampleAccount : Account :=
  { id := "a1"
    user := 1
    instrument := 2
    type := "cash"
    title := "Cash"
    balance := 0
    creditLimit := 0
    inBalance := true
    savings := false
    archive := false }

/-- A concrete diff with a cursor, one account merge and one deletion. -/
def cursorFirstDiff : DiffObject :=
  { emptyDiff with
    serverTimestamp := some 5
    account := some [sampleAccount]
    deletion := some [{ id := "t1", object := "transaction" }] }

/-- C3 counterexample: in `applyDiff` the cursor assignment is the first
statement executed, not the last — on a diff carrying a cursor, one entity
merge and one deletion, the cursor op sits at position 0, before the merge
at position 1, refuting "the cursor is advanced only after the merges and
the deletions". -/
theorem claim3_counterexample :
    ¬ (∀ (i j : Nat) (op op' : DiffOp),
        (applyDiffOps cursorFirstDiff)[i]? = some op → op.isCursor = true →
        (applyDiffOps cursorFirstDiff)[j]? = some op' →
        (op'.isMerge = true ∨ op'.isDelete = true) → j < i) := by
  intro h
  have h01 := h 0 1 (.setCursor 5) (.mergeAccount [sampleAccount])
    (by decide) (by decide) (by decide) (Or.inl (by decide))
  omega

/-- C3 (amended): within one `applyDiff` run the entity merges are all
applied before the deletions (the statement list splits into a
deletion-free prefix followed by deletions only), and although the cursor
assignment is executed first rather than last, `applyDiff` is atomic and
infallible, so the resulting state is exactly the one obtained by applying
the merges, then the deletions, then advancing the cursor. -/
theorem claim3_merges_before_deletions (d : DiffObject) (s : CacheState) :
    (∃ pre dels, applyDiffOps d = pre ++ dels
      ∧ (∀ op ∈ pre, op.isDelete = false)
      ∧ (∀ op ∈ dels, op.isDelete = true ∧ op.isMerge = false ∧ op.isCursor = false))
    ∧ applyDiff s d = applyCursor (applyDeletions (applyEntities s d) d) d := by
  constructor
  · refine ⟨(match d.serverTimestamp with
        | none => []
        | some v => [DiffOp.setCursor v])
      ++ (optOp .mergeInstrument d.instrument ++ optOp .mergeCountry d.country
          ++ optOp .mergeCompany d.company ++ optOp .mergeUser d.user
          ++ optOp .mergeAccount d.account ++ optOp .mergeTag d.tag
          ++ optOp .mergeMerchant d.merchant ++ optOp .mergeReminder d.reminder
          ++ optOp .mergeReminderMarker d.reminderMarker
          ++ optOp .mergeTransaction d.transaction ++ optOp .mergeBudget d.budget),
      (d.deletion.getD []).map DiffOp.deleteOne, ?_, ?_, ?_⟩
    · unfold applyDiffOps
      simp [List.append_assoc]
    · intro op hop
      rcases List.mem_append.mp hop with hc | hm
      · cases hsv : d.serverTimestamp with
        | none => rw [hsv] at hc; simp at hc
        | some v =>
            rw [hsv] at hc
            simp only [List.mem_singleton] at hc
            subst hc
            rfl
      · simp only [List.mem_append] at hm
        rcases hm with ((((((((((h | h) | h) | h) | h) | h) | h) | h) | h) | h) | h) <;>
          · obtain ⟨l, rfl⟩ := mem_optOp _ _ _ h
            rfl
    · intro op hop
      simp only [List.mem_map] at hop
      obtain ⟨del, _, rfl⟩ := hop
      exact ⟨rfl, rfl, rfl⟩
  · exact applyDiff_cursor_last s d

/-! ## C9: soft deletion is an entity update -/

/-- The write request of `runWrite` always carries the current cursor and
the submitted batch, whatever the gateway answers. -/
theorem runWrite_reqs {α : Type} (gw : Nat → DiffObject → Except String DiffObject)
    (now : Nat) (chg : DiffObject) (s : CacheState) (out : α) :
    (runWrite gw now chg s out).reqs
      = [{ cursor := s.serverTimestamp, changes := some chg }] := by
  unfold runWrite writeDiff
  cases gw s.serverTimestamp chg <;> rfl

/-- C9: `delete_transaction` submits through `writeDiff` exactly a copy of
the stored transaction with the `deleted` flag set and a refreshed
`changed` timestamp, every other field unchanged; `delete_reminder` submits
a copy of the stored reminder with `endDate` moved to the past sentinel
`2000-01-01` and a refreshed `changed` timestamp, every other field
unchanged — and the resulting reminder fails the `active_only` listing
filter for any later date. -/
theorem claim9_soft_delete
    (gw : Nat → DiffObject → Except String DiffObject) (now : Nat)
    (tid rid : String) (s : CacheState) (tx : Transaction) (rem : Reminder)
    (htx : mapLookup s.transactions tid = some tx)
    (hrem : mapLookup s.reminders rid = some rem) :
    ((deleteTransaction gw now tid s).reqs
        = [{ cursor := s.serverTimestamp
             changes := some { emptyDiff with
               transaction := some [{ tx with deleted := true, changed := now }] } }])
    ∧ (let sub : Transaction := { tx with deleted := true, changed := now }
       sub.deleted = true ∧ sub.changed = now
        ∧ sub.id = tx.id ∧ sub.user = tx.user ∧ sub.created = tx.created
        ∧ sub.hold = tx.hold ∧ sub.incomeInstrument = tx.incomeInstrument
        ∧ sub.incomeAccount = tx.incomeAccount ∧ sub.income = tx.income
        ∧ sub.outcomeInstrument = tx.outcomeInstrument
        ∧ sub.outcomeAccount = tx.outcomeAccount ∧ sub.outcome = tx.outcome
        ∧ sub.tag = tx.tag ∧ sub.merchant = tx.merchant ∧ sub.payee = tx.payee
        ∧ sub.originalPayee = tx.originalPayee ∧ sub.comment = tx.comment
        ∧ sub.date = tx.date ∧ sub.mcc = tx.mcc
        ∧ sub.reminderMarker = tx.reminderMarker ∧ sub.opIncome = tx.opIncome
        ∧ sub.opIncomeInstrument = tx.opIncomeInstrument
        ∧ sub.opOutcome = tx.opOutcome
        ∧ sub.opOutcomeInstrument = tx.opOutcomeInstrument
        ∧ sub.latitude = tx.latitude ∧ sub.longitude = tx.longitude
        ∧ sub.qrCode = tx.qrCode)
    ∧ ((deleteReminder gw now rid s).reqs
        = [{ cursor := s.serverTimestamp
             changes := some { emptyDiff with
               reminder := some [{ rem with changed := now, endDate := some "2000-01-01" }] } }])
    ∧ (let subR : Reminder := { rem with changed := now, endDate := some "2000-01-01" }
       subR.endDate = some "2000-01-01" ∧ subR.changed = now
        ∧ subR.id = rem.id ∧ subR.user = rem.user
        ∧ subR.incomeInstrument = rem.incomeInstrument
        ∧ subR.incomeAccount = rem.incomeAccount ∧ subR.income = rem.income
        ∧ subR.outcomeInstrument = rem.outcomeInstrument
        ∧ subR.outcomeAccount = rem.outcomeAccount ∧ subR.outcome = rem.outcome
        ∧ subR.tag = rem.tag ∧ subR.merchant = rem.merchant
        ∧ subR.payee = rem.payee ∧ subR.comment = rem.comment
        ∧ subR.interval = rem.interval ∧ subR.step = rem.step
        ∧ subR.points = rem.points ∧ subR.startDate = rem.startDate
        ∧ subR.notify = rem.notify
        ∧ (∀ today, strLe today "2000-01-01" = false →
            reminderIsActive subR today = false)) := by
  refine ⟨?_, ?_, ?_, ?_⟩
  · unfold deleteTransaction
    rw [htx]
    dsimp only
    exact runWrite_reqs _ _ _ _ _
  · exact ⟨rfl, rfl, rfl, rfl, rfl, rfl, rfl, rfl, rfl, rfl, rfl, rfl, rfl, rfl, rfl,
      rfl, rfl, rfl, rfl, rfl, rfl, rfl, rfl, rfl, rfl, rfl, rfl⟩
  · unfold deleteReminder
    rw [hrem]
    dsimp only
    exact runWrite_reqs _ _ _ _ _
  · refine ⟨rfl, rfl, rfl, rfl, rfl, rfl, rfl, rfl, rfl, rfl, rfl, rfl, rfl, rfl, rfl,
      rfl, rfl, rfl, rfl, ?_⟩
    intro today h
    unfold reminderIsActive
    exact h

/-- A sample stored transaction. -/
def sampleTx : Transaction :=
  { bothPositiveSameAccountTx with id := "tx-1", income := 0, outcome := 100 }

/-- A sample stored reminder. -/
def sampleReminder : Reminder :=
  { id := "rem-1"
    user := 1
    changed := 10
    incomeInstrument := 2
    incomeAccount := "acc-1"
    income := 0
    outcomeInstrument := 2
    outcomeAccount := "acc-1"
    outcome := 500
    tag := none
    merchant := none
    payee := none
    comment := none
    interval := "month"
    step := 1
    points := none
    startDate := "2026-01-01"
    endDate := none
    notify := true }

/-- A cache state holding `sampleTx` and `sampleReminder`. -/
def softDeleteState : CacheState :=
  { initState with
    transactions := [("tx-1", sampleTx)]
    reminders := [("rem-1", sampleReminder)] }

/-- C9 witness: the two soft deletes at a concrete cache state. -/
theorem claim9_witness :
    (deleteTransaction (fun _ _ => .ok emptyDiff) 99 "tx-1" softDeleteState).reqs
        = [{ cursor := 0
             changes := some { emptyDiff with
               transaction := some [{ sampleTx with deleted := true, changed := 99 }] } }]
    ∧ (deleteReminder (fun _ _ => .ok emptyDiff) 99 "rem-1" softDeleteState).reqs
        = [{ cursor := 0
             changes := some { emptyDiff with
               reminder := some
                 [{ sampleReminder with changed := 99, endDate := some "2000-01-01" }] } }]
    ∧ reminderIsActive
        { sampleReminder with changed := 99, endDate := some "2000-01-01" } "2026-10-12"
        = false := by
  have h := claim9_soft_delete (fun _ _ => .ok emptyDiff) 99 "tx-1" "rem-1"
    softDeleteState sampleTx sampleReminder (by decide) (by decide)
  refine ⟨h.1, h.2.2.1, ?_⟩
  exact h.2.2.2.2.2.2.2.2.2.2.2.2.2.2.2.2.2.2.2.2.2.2 "2026-10-12" (by decide)

/-! ## C6: unknown identifiers are rejected before any write -/

/-- C7: starting from any quiescent system, two concurrent `sync` calls
(the path `ensureFresh` takes when a refresh is needed) produce exactly one
gateway round trip, the second caller receiving the result of the first
caller's in-flight request; and a `writeDiff` issued while that sync is in
flight queues on the in-flight promise and sends its own request only after
the sync response has been applied — its request is logged after the sync
request and carries the cursor of the post-application cache state. -/
theorem claim7_single_flight (c : CacheState) (d : DiffObject) (chg : DiffObject) (now : Nat) :
    ((sysRun (quiescent c)
        [.callSync 1, .callSync 2, .respondSync (.ok d) now]).requests
      = [{ cursor := c.serverTimestamp, changes := none }])
    ∧ ((sysRun (quiescent c)
        [.callSync 1, .callSync 2, .respondSync (.ok d) now]).results
      = [(1, .ok d), (2, .ok d)])
    ∧ ((sysRun (quiescent c)
        [.callSync 1, .callWrite 2 chg, .respondSync (.ok d) now]).requests
      = [{ cursor := c.serverTimestamp, changes := none },
         { cursor := (applyDiff c d).serverTimestamp, changes := some chg }])
    ∧ ((sysRun (quiescent c)
        [.callSync 1, .callWrite 2 chg, .respondSync (.ok d) now]).cache
      = { applyDiff c d with initialized := true, lastSyncTime := now })
    ∧ ((sysRun (quiescent c)
        [.callSync 1, .callWrite 2 chg, .respondSync (.ok d) now]).writeFlights
      = [(2, chg)]) := by
  refine ⟨rfl, rfl, rfl, rfl, rfl⟩

/-! ## C8: marker-mode reminder listing -/

/-- C8: in the marker-mode listing over the closed interval
`[mfrom, mto]`, a reminder of the store appears in the output iff it has at
least one qualifying marker in the interval, and each listed entry carries
`markers_count` equal to the number of qualifying markers and
`markers_total_outcome` / `markers_total_income` equal to the sums of those
markers' amounts — not the reminder template's nominal amount. -/
theorem claim8_marker_mode (rems : List Reminder) (markers : List ReminderMarker)
    (mfrom mto : String) (ip : Bool) :
    (∀ r ∈ rems, qualifyingMarkers markers r mfrom mto ip ≠ [] →
      ({ rid := r.id
         markersCount := (qualifyingMarkers markers r mfrom mto ip).length
         markersTotalOutcome :=
           ((qualifyingMarkers markers r mfrom mto ip).map ReminderMarker.outcome).sum
         markersTotalIncome :=
           ((qualifyingMarkers markers r mfrom mto ip).map ReminderMarker.income).sum }
        : MarkerModeEntry) ∈ markerModeList rems markers mfrom mto ip)
    ∧ (∀ e ∈ markerModeList rems markers mfrom mto ip, ∃ r ∈ rems,
        qualifyingMarkers markers r mfrom mto ip ≠ []
        ∧ e = { rid := r.id
                markersCount := (qualifyingMarkers markers r mfrom mto ip).length
                markersTotalOutcome :=
                  ((qualifyingMarkers markers r mfrom mto ip).map ReminderMarker.outcome).sum
                markersTotalIncome :=
                  ((qualifyingMarkers markers r mfrom mto ip).map ReminderMarker.income).sum }) := by
  constructor
  · intro r hr hq
    unfold markerModeList
    apply List.mem_filterMap.mpr
    refine ⟨r, hr, ?_⟩
    simp only [List.isEmpty_iff, hq, if_false]
  · intro e he
    obtain ⟨r, hr, hfr⟩ := List.mem_filterMap.mp he
    by_cases hq : qualifyingMarkers markers r mfrom mto ip = []
    · simp only [List.isEmpty_iff, hq, if_true] at hfr
      cases hfr
    · refine ⟨r, hr, hq, ?_⟩
      simp only [List.isEmpty_iff, hq, if_false, Option.some_inj] at hfr
      exact hfr.symm

/-- The five planned markers of one reminder, 10000 outcome each, dated
inside the period `2026-02-20 .. 2026-03-19`. -/
def fiveMarkers : List ReminderMarker :=
  [{ id := "m1", reminder := "rem-1", date := "2026-02-21", state := "planned",
     income := 0, outcome := 10000 },
   { id := "m2", reminder := "rem-1", date := "2026-02-24", state := "planned",
     income := 0, outcome := 10000 },
   { id := "m3", reminder := "rem-1", date := "2026-02-28", state := "planned",
     income := 0, outcome := 10000 },
   { id := "m4", reminder := "rem-1", date := "2026-03-07", state := "planned",
     income := 0, outcome := 10000 },
   { id := "m5", reminder := "rem-1", date := "2026-03-14", state := "planned",
     income := 0, outcome := 10000 }]

/-- C8 witness: a reminder with five 10000-outcome markers in the requested
interval is listed with `markers_total_outcome = 50000` and
`markers_count = 5`, although the reminder template's nominal outcome is
500. -/
theorem claim8_witness :
    ({ rid := "rem-1", markersCount := 5, markersTotalOutcome := 50000,
       markersTotalIncome := 0 } : MarkerModeEntry)
      ∈ markerModeList [sampleReminder] fiveMarkers "2026-02-20" "2026-03-19" false := by
  have h := (claim8_marker_mode [sampleReminder] fiveMarkers "2026-02-20" "2026-03-19"
    false).1 sampleReminder (List.mem_singleton.mpr rfl) (by decide)
  exact h

/-- C10 witness: a budget deletion and a deletion of an absent account id
on a populated state. -/
theorem claim10_witness :
    applyDeletion softDeleteState { id := "b1", object := "budget" } = softDeleteState
    ∧ applyDeletion softDeleteState { id := "nope", object := "account" } = softDeleteState := by
  refine ⟨?_, ?_⟩
  · exact (claim10_applyDeletion_frame softDeleteState
      { id := "b1", object := "budget" }).1 (by decide)
  · exact (claim10_applyDeletion_frame softDeleteState
      { id := "nope", object := "account" }).2.1 rfl rfl

/-- C3 witness: the amended order property at the concrete diff. -/
theorem claim3_order_witness :
    (∃ pre dels, applyDiffOps cursorFirstDiff = pre ++ dels
      ∧ (∀ op ∈ pre, op.isDelete = false)
      ∧ (∀ op ∈ dels, op.isDelete = true ∧ op.isMerge = false ∧ op.isCursor = false))
    ∧ applyDiff initState cursorFirstDiff
        = applyCursor
            (applyDeletions (applyEntities initState cursorFirstDiff) cursorFirstDiff)
            cursorFirstDiff :=
  claim3_merges_before_deletions cursorFirstDiff initState

